import Mathlib

/-!
# Seat map client (`static/js/seating.js`): selection, hold lifecycle, resync

A shallow embedding of the module-level state of `seating.js` and of the
functions that read and write it, followed by theorems about them.

Modelling conventions

* The five module variables (`seatData`, `selectedSeats`, `heldSeats`,
  `holdTimer`, `isExpired`) are the fields of `State`; every function takes the
  state and returns the next one.
* `seatData` is a JavaScript object; it is represented by the list of its
  entries in `Object.entries` order, read with first-match lookup.
* A `hold_until` text is represented by a `Stamp`: the kind of zone designator
  it carries and the instant it denotes.  The module reads such a text in two
  ways, both modelled: `dateOf` is `new Date(text)` on the text as written (an
  undesignated date-time is local time), `countdownEnd` is the reading of
  `startCountdown`, which appends `Z` unless the text ends in `Z` or contains
  `+`.  `none` stands for an absent (falsy) field.  Date-only and non-ISO
  texts are outside the model.
* `held_by == CURRENT_USER_ID` is modelled as equality of an optional numeric
  identifier with the configured identifier.
* `new Date()` / `Date.now()` is the explicit argument `now`.
* `holdTimer` is represented by the `endTime` of the interval that is
  currently running (`none` when no interval is running); `tick` is one firing
  of the interval callback.
* Of the document, only the seat buttons are kept (`data-seat-id`, class name,
  `disabled`, presence of a click listener that calls `toggleSeat`); panels,
  texts, toasts and the limit bar are presentation and are not part of the
  state.  The two `setTimeout` calls are recorded as flags.
* `apiFetch` results are explicit arguments.
-/

namespace Seating

/-! ## Data model -/

/-- A `hold_until` text, classified by its zone designator.  `unzoned w` is a
date-time without designator whose calendar reading, taken as UTC, is the
instant `w`; `zulu t` ends in `Z`, `plus t` carries an offset `+hh:mm`,
`minus t` an offset `-hh:mm`, each denoting the instant `t` (milliseconds
since the epoch). -/
inductive Stamp where
  | unzoned (wall : Int)
  | zulu (t : Int)
  | plus (t : Int)
  | minus (t : Int)
deriving DecidableEq, Repr

/-- Result of `Date.prototype.getTime`: an instant, or `NaN` for an invalid
date. -/
inductive TimeValue where
  | ms (t : Int)
  | nan
deriving DecidableEq, Repr

/-- One value of `seatData`: `{status, zone, held_by, hold_until}`. -/
structure Seat where
  status : String
  zone : String
  held_by : Option Nat
  hold_until : Option Stamp
deriving DecidableEq, Repr

/-- The `seatData` object as its list of entries. -/
abbrev Catalog := List (String × Seat)

/-- Template globals read by the module, and the time zone of the browser:
`tzOffset` is local time minus UTC, in milliseconds. -/
structure Config where
  CURRENT_USER_ID : Nat
  MAX_PER_USER : Nat
  EVENT_ROWS : Nat
  EVENT_COLS : Nat
  tzOffset : Int
deriving DecidableEq, Repr

/-- A seat button of the rendered map. -/
structure Button where
  seatId : String
  className : String
  disabled : Bool
  click : Bool
deriving DecidableEq, Repr

/-- Module state of `seating.js` together with the seat buttons and the two
scheduled callbacks. -/
structure State where
  seatData : Catalog
  selectedSeats : List String
  heldSeats : List String
  holdTimer : Option TimeValue
  isExpired : Bool
  buttons : List Button
  loadScheduled : Bool
  pageReloadScheduled : Bool
deriving DecidableEq, Repr

/-- Body of the response of `GET /api/seats/<id>`. -/
structure Snapshot where
  seats : Option Catalog
  rows : Option Nat
  cols : Option Nat
deriving DecidableEq, Repr

/-- Result of `apiFetch` for the seat snapshot. -/
structure LoadResult where
  ok : Bool
  data : Snapshot
deriving DecidableEq, Repr

/-- Result of `apiFetch` for `POST /api/hold`. -/
structure HoldResult where
  ok : Bool
  seats : Option (List String)
  hold_until : Option Stamp
deriving DecidableEq, Repr

/-- State of the module when the script has just been evaluated. -/
def initialState : State :=
  { seatData := [], selectedSeats := [], heldSeats := [], holdTimer := none,
    isExpired := false, buttons := [], loadScheduled := false,
    pageReloadScheduled := false }

/-! ## Helpers standing for JavaScript built-ins -/

/-- Instant of `new Date(text)` for the text as written: a date-time without
designator is read as local time. -/
def dateOf (cfg : Config) (h : Stamp) : Int :=
  match h with
  | Stamp.unzoned w => w - cfg.tzOffset
  | Stamp.zulu t => t
  | Stamp.plus t => t
  | Stamp.minus t => t

/-- Value of `endTime` in `startCountdown`: `Z` is appended unless the text
ends in `Z` or contains `+`, and the result is given to `new Date`.  An
undesignated date-time is thereby read as UTC; a text with a negative offset
becomes invalid. -/
def countdownEnd (h : Stamp) : TimeValue :=
  match h with
  | Stamp.unzoned w => TimeValue.ms w
  | Stamp.zulu t => TimeValue.ms t
  | Stamp.plus t => TimeValue.ms t
  | Stamp.minus _ => TimeValue.nan

/-- UTF-16 code units of one character. -/
def charUnits (c : Char) : List Nat :=
  if c.toNat < 65536 then [c.toNat]
  else [55296 + (c.toNat - 65536) / 1024, 56320 + (c.toNat - 65536) % 1024]

/-- UTF-16 code units of a string. -/
def utf16 (s : String) : List Nat :=
  s.data.foldr (fun c acc => charUnits c ++ acc) []

/-- Lexicographic `≤` on code-unit sequences. -/
def unitsLe : List Nat → List Nat → Bool
  | [], _ => true
  | _ :: _, [] => false
  | a :: as, b :: bs => if a < b then true else if b < a then false else unitsLe as bs

/-- Order used by `Array.prototype.sort()` without a comparator. -/
def keyLe (a b : String) : Prop := unitsLe (utf16 a) (utf16 b) = true

instance : DecidableRel keyLe := fun a b => by
  unfold keyLe
  infer_instance

/-- The array after `arr.sort()`. -/
def sortKeys (l : List String) : List String := l.insertionSort keyLe

/-- Value of `seatData[seatId]`. -/
def getSeat (cat : Catalog) (seatId : String) : Option Seat :=
  match cat with
  | [] => none
  | (k, v) :: rest => if k = seatId then some v else getSeat rest seatId

/-- Effect of `seatData[seatId] = seat`. -/
def setSeat (cat : Catalog) (seatId : String) (seat : Seat) : Catalog :=
  match cat with
  | [] => [(seatId, seat)]
  | (k, v) :: rest =>
    if k = seatId then (k, seat) :: rest else (k, v) :: setSeat rest seatId seat

/-- Value of `x || d` for a numeric field. -/
def orElse (x : Option Nat) (d : Nat) : Nat :=
  match x with
  | none => d
  | some 0 => d
  | some n => n

/-- Function `updateSeatUI`: the first button carrying the seat id gets the
class `seat seat-<state>`.  The selector text is taken to denote the id
itself; ids with a backslash or a double quote, which the selector syntax
reads otherwise, are outside the model. -/
def updateSeatUI (bs : List Button) (seatId : String) (state : String) : List Button :=
  match bs with
  | [] => []
  | b :: rest =>
    if b.seatId = seatId then { b with className := "seat seat-" ++ state } :: rest
    else b :: updateSeatUI rest seatId state

/-- Loop `seats.forEach(s => updateSeatUI(s, state))`. -/
def updateSeatsUI (bs : List Button) (seats : List String) (state : String) : List Button :=
  seats.foldl (fun acc k => updateSeatUI acc k state) bs

/-! ## Counting the seats already used -/

/-- Test applied to one seat by the counting loop of `toggleSeat`. -/
def toggleCounts (cfg : Config) (now : Int) (s : Seat) : Bool :=
  if s.held_by = some cfg.CURRENT_USER_ID then
    if s.status = "SOLD" ∨ s.status = "HELD" then
      match s.hold_until with
      | some h => if s.status = "HELD" ∧ dateOf cfg h < now then false else true
      | none => true
    else false
  else false

/-- Variable `myPreUsed` of `toggleSeat` after its loop. -/
def myPreUsedToggle (cfg : Config) (now : Int) (cat : Catalog) : Nat :=
  cat.foldl (fun n e => if toggleCounts cfg now e.2 then n + 1 else n) 0

/-- Test applied to one seat by the counting loop of `updateLimitStatus`. -/
def limitCounts (cfg : Config) (now : Int) (s : Seat) : Bool :=
  if s.held_by = some cfg.CURRENT_USER_ID then
    if s.status = "SOLD" then true
    else if s.status = "HELD" then
      match s.hold_until with
      | some h => decide (dateOf cfg h > now)
      | none => false
    else false
  else false

/-- Variable `myPreUsed` of `updateLimitStatus` after its loop. -/
def myPreUsedLimit (cfg : Config) (now : Int) (cat : Catalog) : Nat :=
  cat.foldl (fun n e => if limitCounts cfg now e.2 then n + 1 else n) 0

/-- Specification side: the instant a `hold_until` denotes, "UTC if
unqualified". -/
def instantOf (h : Stamp) : Int :=
  match h with
  | Stamp.unzoned w => w
  | Stamp.zulu t => t
  | Stamp.plus t => t
  | Stamp.minus t => t

/-- Specification side: a seat owned by `userId` that is `SOLD`, or `HELD`
with `holdUntil ≥ now`. -/
def ownedByUser (userId : Nat) (now : Int) (s : Seat) : Bool :=
  decide (s.held_by = some userId) &&
    (decide (s.status = "SOLD") ||
      (decide (s.status = "HELD") &&
        match s.hold_until with
        | some h => decide (instantOf h ≥ now)
        | none => false))

/-- Specification side: `countOwnedByUser(userId, now)`. -/
def countOwnedByUser (userId : Nat) (now : Int) (cat : Catalog) : Nat :=
  cat.countP (fun e => ownedByUser userId now e.2)

/-! ## Countdown -/

/-- Function `handleExpiration`. -/
def handleExpiration (s : State) : State :=
  { s with isExpired := true, pageReloadScheduled := true }

/-- Function `startCountdown`: any running interval is cleared and a new one
is started whose `endTime` is the UTC reading of the `holdUntil` text. -/
def startCountdown (s : State) (holdUntil : Stamp) : State :=
  { s with holdTimer := some (countdownEnd holdUntil) }

/-- One firing of the interval callback installed by `startCountdown`.  With
`endTime = NaN` the test `remaining <= 0` is false and the interval keeps
running. -/
def tick (s : State) (now : Int) : State :=
  match s.holdTimer with
  | none => s
  | some TimeValue.nan => s
  | some (TimeValue.ms endTime) =>
    let remaining := max 0 (endTime - now)
    if remaining ≤ 0 then handleExpiration { s with holdTimer := none } else s

/-- Function `showConfirmPanel(heldSeats, holdUntil)`: `seats.sort()` sorts the
array it is given, which at both call sites is `heldSeats` itself. -/
def showConfirmPanel (s : State) (holdUntil : Stamp) : State :=
  startCountdown { s with heldSeats := sortKeys s.heldSeats } holdUntil

/-! ## Rendering and loading -/

/-- Seat used by `renderSeatMap` for an id without an entry. -/
def defaultSeat : Seat :=
  { status := "FREE", zone := "GENERAL", held_by := none, hold_until := none }

/-- Seat id of row `r` (from 0) and column `c` (from 1). -/
def seatIdOf (r c : Nat) : String :=
  String.singleton (Char.ofNat (65 + r)) ++ toString c

/-- The button as left by the `SOLD` / `HELD` / otherwise chain in the inner
loop of `renderSeatMap`.  The class first given to the button
(`seat-<status>`) is overwritten in each of the three branches and is not
represented. -/
def baseButton (cfg : Config) (seatId : String) (seat : Seat) : Button :=
  if seat.status = "SOLD" then
    if seat.held_by = some cfg.CURRENT_USER_ID then
      { seatId := seatId, className := "seat seat-my-sold", disabled := true, click := false }
    else
      { seatId := seatId, className := "seat seat-sold", disabled := true, click := false }
  else if seat.status = "HELD" then
    if seat.held_by = some cfg.CURRENT_USER_ID then
      { seatId := seatId, className := "seat seat-my-hold", disabled := true, click := false }
    else
      { seatId := seatId, className := "seat seat-held", disabled := true, click := false }
  else
    { seatId := seatId, className := "seat seat-free", disabled := false, click := true }

/-- Body of the inner loop of `renderSeatMap` for one seat id: the button is
built, and a seat whose hold has expired gets the free class and a click
listener and is rewritten to `FREE` in `seatData`. -/
def renderSeat (cfg : Config) (now : Int) (cat : Catalog) (seatId : String) :
    Catalog × Button :=
  let seat := (getSeat cat seatId).getD defaultSeat
  let btn := baseButton cfg seatId seat
  match seat.hold_until with
  | some holdEnd =>
    if seat.status = "HELD" ∧ dateOf cfg holdEnd < now then
      (setSeat cat seatId { seat with status := "FREE" },
        { btn with className := "seat seat-free", click := true })
    else (cat, btn)
  | none => (cat, btn)

/-- Seat ids in the order in which `renderSeatMap` visits them. -/
def gridIds (rows cols : Nat) : List String :=
  (List.range rows).flatMap (fun r => (List.range cols).map (fun c => seatIdOf r (c + 1)))

/-- One step of the rendering loops: render the seat, append its button. -/
def renderStep (cfg : Config) (now : Int) (acc : Catalog × List Button) (seatId : String) :
    Catalog × List Button :=
  let r := renderSeat cfg now acc.1 seatId
  (r.1, acc.2 ++ [r.2])

/-- Function `renderSeatMap(data)`: the map is emptied and one button per grid
position is appended; expired holds are rewritten to `FREE` in `seatData`. -/
def renderSeatMap (cfg : Config) (now : Int) (s : State) (data : Snapshot) : State :=
  let rows := orElse data.rows cfg.EVENT_ROWS
  let cols := orElse data.cols cfg.EVENT_COLS
  let r := (gridIds rows cols).foldl (renderStep cfg now) (s.seatData, [])
  { s with seatData := r.1, buttons := r.2 }

/-- Loop of `checkExistingHolds`: the pair `(myHolds, earliestHoldUntil)`.
Both comparisons read the texts as written; `earliestHoldUntil` keeps the
text itself. -/
def checkStep (cfg : Config) (now : Int) (acc : List String × Option Stamp)
    (e : String × Seat) : List String × Option Stamp :=
  match e.2.hold_until with
  | some holdEnd =>
    if e.2.status = "HELD" ∧ e.2.held_by = some cfg.CURRENT_USER_ID then
      if dateOf cfg holdEnd > now then
        (acc.1 ++ [e.1],
          match acc.2 with
          | none => some holdEnd
          | some earliest =>
            if dateOf cfg holdEnd < dateOf cfg earliest then some holdEnd else some earliest)
      else acc
    else acc
  | none => acc

/-- Function `checkExistingHolds`. -/
def checkExistingHolds (cfg : Config) (now : Int) (s : State) : State :=
  let r := s.seatData.foldl (checkStep cfg now) ([], none)
  match r.1, r.2 with
  | _ :: _, some earliest => showConfirmPanel { s with heldSeats := r.1 } earliest
  | _, _ => s

/-- Function `loadSeats`, given the result of the snapshot request. -/
def loadSeats (cfg : Config) (now : Int) (s : State) (result : LoadResult) : State :=
  if result.ok = false then s
  else
    let s1 := { s with seatData := result.data.seats.getD [] }
    let s2 := renderSeatMap cfg now s1 result.data
    let s3 := checkExistingHolds cfg now s2
    { s3 with isExpired := false }

/-! ## Selection -/

/-- Function `toggleSeat`. -/
def toggleSeat (cfg : Config) (now : Int) (s : State) (seatId : String) : State :=
  if s.isExpired then s
  else if seatId ∈ s.selectedSeats then
    { s with
      selectedSeats := sortKeys (s.selectedSeats.erase seatId),
      buttons := updateSeatUI s.buttons seatId "free" }
  else
    let myPreUsed := myPreUsedToggle cfg now s.seatData
    let totalProjected := myPreUsed + s.selectedSeats.length + 1
    if totalProjected > cfg.MAX_PER_USER then s
    else
      { s with
        selectedSeats := sortKeys (s.selectedSeats ++ [seatId]),
        buttons := updateSeatUI s.buttons seatId "selected" }

/-- Function `clearSelection`. -/
def clearSelection (s : State) : State :=
  { s with
    buttons := updateSeatsUI s.buttons s.selectedSeats "free",
    selectedSeats := [] }

/-! ## Hold, purchase, release -/

/-- The `catch` block of `holdSeats`. -/
def holdFailed (cfg : Config) (now : Int) (s : State) (reload : LoadResult) : State :=
  { loadSeats cfg now s reload with selectedSeats := [] }

/-- Function `holdSeats`, given the result of the hold request and, for the
`catch` block, the result of the snapshot request it issues.  A response
without a usable `hold_until` makes `startCountdown` throw after it has cleared
the running interval, which leads into the `catch` block. -/
def holdSeats (cfg : Config) (now : Int) (s : State) (result : HoldResult)
    (reload : LoadResult) : State :=
  if s.selectedSeats = [] then s
  else if result.ok = false then holdFailed cfg now s reload
  else
    let held := result.seats.getD s.selectedSeats
    let s1 := { s with
      heldSeats := sortKeys held,
      buttons := updateSeatsUI s.buttons held "my-hold",
      selectedSeats := [] }
    match result.hold_until with
    | some holdUntil => startCountdown s1 holdUntil
    | none => holdFailed cfg now { s1 with holdTimer := none } reload

/-- Function `confirmPurchase`, given whether the purchase response was
successful. -/
def confirmPurchase (s : State) (ok : Bool) : State :=
  if ok = false then s
  else
    { s with
      holdTimer := none,
      buttons := updateSeatsUI s.buttons s.heldSeats "sold" }

/-- Function `releaseHold`, given whether the release response was
successful. -/
def releaseHold (s : State) (_ok : Bool) : State :=
  if s.heldSeats = [] then s
  else
    { s with
      holdTimer := none,
      buttons := updateSeatsUI s.buttons s.heldSeats "free",
      heldSeats := [],
      selectedSeats := [],
      loadScheduled := true }

/-- State after a sequence of `toggleSeat` calls. -/
def toggleAll (cfg : Config) (now : Int) (s : State) (ids : List String) : State :=
  ids.foldl (toggleSeat cfg now) s

/-- State after a sequence of `toggleSeat` calls, each with its own clock
reading. -/
def toggleTimed (cfg : Config) (s : State) (calls : List (Int × String)) : State :=
  calls.foldl (fun acc c => toggleSeat cfg c.1 acc c.2) s

/-! ## Specification-side predicates -/

/-- Test of the loop of `checkExistingHolds` as a predicate: the seat is
`HELD` by the current user and its `hold_until`, read as written, is later
than `now`. -/
def activeHold (cfg : Config) (now : Int) (s : Seat) : Bool :=
  decide (s.status = "HELD") && decide (s.held_by = some cfg.CURRENT_USER_ID) &&
    match s.hold_until with
    | some h => decide (now < dateOf cfg h)
    | none => false

/-- Specification side: the seat is `HELD` by `userId` and the instant its
`hold_until` denotes is later than `now`. -/
def liveHold (userId : Nat) (now : Int) (s : Seat) : Bool :=
  decide (s.status = "HELD") && decide (s.held_by = some userId) &&
    match s.hold_until with
    | some h => decide (now < instantOf h)
    | none => false

/-- Specification side: keys of the seats with a live hold of `userId`. -/
def liveHoldKeys (userId : Nat) (now : Int) (cat : Catalog) : List String :=
  (cat.filter (fun e => liveHold userId now e.2)).map Prod.fst

/-- Test of the expired-hold block of `renderSeatMap` as a predicate: the
stored status is `HELD` and `hold_until`, read as written, is earlier than
`now`. -/
def expiredHold (cfg : Config) (now : Int) (s : Seat) : Prop :=
  s.status = "HELD" ∧ ∃ h, s.hold_until = some h ∧ dateOf cfg h < now

/-- Specification side: the catalog does not record the seat as `SOLD` or
`HELD` (a seat without an entry is rendered from `defaultSeat`, which is
`FREE`). -/
def notTaken (cat : Catalog) (seatId : String) : Prop :=
  ∀ seat, getSeat cat seatId = some seat → seat.status ≠ "SOLD" ∧ seat.status ≠ "HELD"

/-! ## Concrete configurations used in the examples -/

/-- Configuration: user 1, cap 3, a grid of one row and four columns, browser
in UTC. -/
def cfgCap3 : Config :=
  { CURRENT_USER_ID := 1, MAX_PER_USER := 3, EVENT_ROWS := 1, EVENT_COLS := 4, tzOffset := 0 }

/-- Configuration: user 1, cap 1, a grid of one row and four columns, browser
in UTC. -/
def cfgCap1 : Config :=
  { CURRENT_USER_ID := 1, MAX_PER_USER := 1, EVENT_ROWS := 1, EVENT_COLS := 4, tzOffset := 0 }

/-- Configuration: user 1, cap 3, a grid of one row and four columns, browser
five hours behind UTC. -/
def cfgUtcMinus5 : Config :=
  { CURRENT_USER_ID := 1, MAX_PER_USER := 3, EVENT_ROWS := 1, EVENT_COLS := 4,
    tzOffset := -18000000 }

/-- A seat sold to `u`. -/
def soldTo (u : Nat) : Seat :=
  { status := "SOLD", zone := "GENERAL", held_by := some u, hold_until := none }

/-- A seat held by `u` until the instant `t`, written with the `Z` suffix. -/
def heldBy (u : Nat) (t : Int) : Seat :=
  { status := "HELD", zone := "GENERAL", held_by := some u,
    hold_until := some (Stamp.zulu t) }

/-- A seat held by `u` whose `hold_until` is written without designator and
reads, as UTC, as the instant `w`. -/
def heldByUnzoned (u : Nat) (w : Int) : Seat :=
  { status := "HELD", zone := "GENERAL", held_by := some u,
    hold_until := some (Stamp.unzoned w) }

/-- A loaded state whose catalog is `cat`, with nothing selected or held. -/
def stateWith (cat : Catalog) : State :=
  { initialState with seatData := cat }

/-! ## Basic facts -/

theorem length_sortKeys (l : List String) : (sortKeys l).length = l.length :=
  List.length_insertionSort keyLe l

theorem perm_sortKeys (l : List String) : (sortKeys l).Perm l :=
  List.perm_insertionSort keyLe l

theorem mem_sortKeys (k : String) (l : List String) : k ∈ sortKeys l ↔ k ∈ l :=
  (perm_sortKeys l).mem_iff

theorem toggleSeat_seatData (cfg : Config) (now : Int) (s : State) (seatId : String) :
    (toggleSeat cfg now s seatId).seatData = s.seatData := by
  unfold toggleSeat
  split
  · rfl
  · split
    · rfl
    · dsimp only
      split <;> rfl

theorem toggleSeat_expired (cfg : Config) (now : Int) (s : State) (seatId : String)
    (h : s.isExpired = true) : toggleSeat cfg now s seatId = s := by
  unfold toggleSeat
  simp [h]

theorem toggleTimed_expired (cfg : Config) (calls : List (Int × String)) :
    ∀ s : State, s.isExpired = true → toggleTimed cfg s calls = s := by
  induction calls with
  | nil => intro s _; rfl
  | cons c rest ih =>
    intro s h
    have hstep : toggleSeat cfg c.1 s c.2 = s := toggleSeat_expired cfg c.1 s c.2 h
    show toggleTimed cfg (toggleSeat cfg c.1 s c.2) rest = s
    rw [hstep]
    exact ih s h

/-- One call of `toggleSeat` keeps selection plus already-used seats within
the cap, when they were within it before. -/
theorem toggleSeat_keeps_cap (cfg : Config) (now : Int) (s : State) (seatId : String)
    (h : s.selectedSeats.length + myPreUsedToggle cfg now s.seatData ≤ cfg.MAX_PER_USER) :
    (toggleSeat cfg now s seatId).selectedSeats.length
      + myPreUsedToggle cfg now (toggleSeat cfg now s seatId).seatData ≤ cfg.MAX_PER_USER := by
  rw [toggleSeat_seatData]
  unfold toggleSeat
  split
  · exact h
  · split
    · rename_i hmem
      simp only [length_sortKeys]
      rw [List.length_erase_of_mem hmem]
      omega
    · dsimp only
      split
      · exact h
      · rename_i hgate
        simp only [length_sortKeys, List.length_append, List.length_singleton]
        omega

theorem toggleAll_keeps_cap (cfg : Config) (now : Int) (ids : List String) :
    ∀ s : State,
      s.selectedSeats.length + myPreUsedToggle cfg now s.seatData ≤ cfg.MAX_PER_USER →
      (toggleAll cfg now s ids).selectedSeats.length
        + myPreUsedToggle cfg now (toggleAll cfg now s ids).seatData ≤ cfg.MAX_PER_USER := by
  induction ids with
  | nil => intro s h; exact h
  | cons k rest ih =>
    intro s h
    show (toggleAll cfg now (toggleSeat cfg now s k) rest).selectedSeats.length + _ ≤ _
    exact ih _ (toggleSeat_keeps_cap cfg now s k h)

/-! ## Selection cap -/

/-- C1 (as stated, refuted): with cap 1 and a catalog in which user 1 already
owns two sold seats, one `toggleSeat` call from the empty selection returns
with selection plus owned seats equal to 2, above the cap. -/
theorem toggle_cap_counterexample :
    ¬ ((toggleAll cfgCap1 1000 (stateWith [("A1", soldTo 1), ("A2", soldTo 1)]) ["A3"]).selectedSeats.length
        + myPreUsedToggle cfgCap1 1000
            (toggleAll cfgCap1 1000 (stateWith [("A1", soldTo 1), ("A2", soldTo 1)]) ["A3"]).seatData
        ≤ cfgCap1.MAX_PER_USER) := by
  decide

/-- C1 (amended): for every catalog, cap and clock value in which the seats the
user already owns (as counted by `toggleSeat`: sold, or held and not expired,
with `held_by` the current user) do not exceed the cap, and every sequence of
`toggleSeat` calls from the empty selection, after each call (every prefix of
the sequence) selection plus owned seats is at most `MAX_PER_USER`. -/
theorem toggle_sequence_within_cap (cfg : Config) (now : Int) (s : State)
    (ids : List String) (k : Nat)
    (hsel : s.selectedSeats = [])
    (hown : myPreUsedToggle cfg now s.seatData ≤ cfg.MAX_PER_USER) :
    (toggleAll cfg now s (ids.take k)).selectedSeats.length
      + myPreUsedToggle cfg now (toggleAll cfg now s (ids.take k)).seatData
      ≤ cfg.MAX_PER_USER := by
  apply toggleAll_keeps_cap
  rw [hsel]
  simpa using hown

/-- C1 witness: cap 3, one sold and one live held seat of user 1, and the
calls A3, A4, A3. -/
theorem toggle_sequence_within_cap_witness :
    (stateWith [("A1", soldTo 1), ("A2", heldBy 1 5000)]).selectedSeats = []
    ∧ myPreUsedToggle cfgCap3 1000 (stateWith [("A1", soldTo 1), ("A2", heldBy 1 5000)]).seatData
        ≤ cfgCap3.MAX_PER_USER
    ∧ (toggleAll cfgCap3 1000 (stateWith [("A1", soldTo 1), ("A2", heldBy 1 5000)])
          (["A3", "A4", "A3"].take 3)).selectedSeats.length
        + myPreUsedToggle cfgCap3 1000
            (toggleAll cfgCap3 1000 (stateWith [("A1", soldTo 1), ("A2", heldBy 1 5000)])
              (["A3", "A4", "A3"].take 3)).seatData
        ≤ cfgCap3.MAX_PER_USER :=
  ⟨rfl, by decide,
    toggle_sequence_within_cap cfgCap3 1000
      (stateWith [("A1", soldTo 1), ("A2", heldBy 1 5000)]) ["A3", "A4", "A3"] 3 rfl (by decide)⟩

/-! ## Expiry -/

/-- C2: a countdown tick at a time at or after the expiry instant puts the
session in the expired state, and from there every sequence of `toggleSeat`
calls (any seat keys, any clock readings) leaves the whole state, hence the
selection, unchanged; a countdown started for a `holdUntil` that
`startCountdown` reads as `t0 + 2000` is expired after the ticks at
`t0 + 1000` and `t0 + 2000`. -/
theorem tick_expires_and_locks (cfg : Config) (s : State) (endTime now : Int)
    (hrun : s.holdTimer = some (TimeValue.ms endTime)) (hnow : endTime ≤ now) :
    (tick s now).isExpired = true
    ∧ (∀ calls : List (Int × String),
        toggleTimed cfg (tick s now) calls = tick s now
        ∧ (toggleTimed cfg (tick s now) calls).selectedSeats = s.selectedSeats)
    ∧ (∀ (s0 : State) (holdUntil : Stamp) (t0 : Int),
        countdownEnd holdUntil = TimeValue.ms (t0 + 2000) →
        (tick (tick (startCountdown s0 holdUntil) (t0 + 1000)) (t0 + 2000)).isExpired = true) := by
  have hexp : (tick s now).isExpired = true := by
    have hmax : max 0 (endTime - now) ≤ 0 := by
      rw [max_le_iff]
      exact ⟨le_refl _, by omega⟩
    simp only [tick, hrun, handleExpiration]
    rw [if_pos hmax]
  have hsel : (tick s now).selectedSeats = s.selectedSeats := by
    simp only [tick, hrun, handleExpiration]
    split
    · rfl
    · rfl
  refine ⟨hexp, ?_, ?_⟩
  · intro calls
    have h := toggleTimed_expired cfg calls (tick s now) hexp
    exact ⟨h, by rw [h, hsel]⟩
  · intro s0 holdUntil t0 hend
    have h1 : tick (startCountdown s0 holdUntil) (t0 + 1000)
        = startCountdown s0 holdUntil := by
      simp [tick, startCountdown, hend]
    rw [h1]
    simp [tick, startCountdown, handleExpiration, hend]

/-- C2 witness: a countdown ending at 2000, ticked at 2000, with A1 selected;
the later calls toggle the selected A1 and the unselected A2. -/
theorem tick_expires_and_locks_witness :
    ({ stateWith [] with
        holdTimer := some (TimeValue.ms 2000), selectedSeats := ["A1"] } : State).holdTimer
        = some (TimeValue.ms 2000)
    ∧ (2000 : Int) ≤ 2000
    ∧ (tick { stateWith [] with
          holdTimer := some (TimeValue.ms 2000), selectedSeats := ["A1"] } 2000).isExpired
        = true
    ∧ (toggleTimed cfgCap3
          (tick { stateWith [] with
            holdTimer := some (TimeValue.ms 2000), selectedSeats := ["A1"] } 2000)
          [(2100, "A1"), (2200, "A2")]).selectedSeats = ["A1"] :=
  ⟨rfl, le_refl _,
    (tick_expires_and_locks cfgCap3
      { stateWith [] with holdTimer := some (TimeValue.ms 2000), selectedSeats := ["A1"] }
      2000 2000 rfl (le_refl _)).1,
    ((tick_expires_and_locks cfgCap3
      { stateWith [] with holdTimer := some (TimeValue.ms 2000), selectedSeats := ["A1"] }
      2000 2000 rfl (le_refl _)).2.1 [(2100, "A1"), (2200, "A2")]).2⟩

/-! ## Already-used seat count -/

theorem foldl_count_eq (p : String × Seat → Bool) (cat : Catalog) :
    ∀ n : Nat, cat.foldl (fun n e => if p e then n + 1 else n) n = n + cat.countP p := by
  induction cat with
  | nil => intro n; simp
  | cons e rest ih =>
    intro n
    rw [List.foldl_cons, ih, List.countP_cons]
    by_cases h : p e = true
    · simp [h]
      omega
    · simp [h]

theorem myPreUsedToggle_eq (cfg : Config) (now : Int) (cat : Catalog) :
    myPreUsedToggle cfg now cat = cat.countP (fun e => toggleCounts cfg now e.2) := by
  unfold myPreUsedToggle
  rw [foldl_count_eq (fun e => toggleCounts cfg now e.2) cat 0]
  simp

theorem myPreUsedLimit_eq (cfg : Config) (now : Int) (cat : Catalog) :
    myPreUsedLimit cfg now cat = cat.countP (fun e => limitCounts cfg now e.2) := by
  unfold myPreUsedLimit
  rw [foldl_count_eq (fun e => limitCounts cfg now e.2) cat 0]
  simp

/-- Every seat counted by `updateLimitStatus` is counted by `toggleSeat`, so
the count of the indicator never exceeds the count of the gate. -/
theorem myPreUsedLimit_le_toggle (cfg : Config) (now : Int) (cat : Catalog) :
    myPreUsedLimit cfg now cat ≤ myPreUsedToggle cfg now cat := by
  rw [myPreUsedLimit_eq, myPreUsedToggle_eq]
  apply List.countP_mono_left
  intro x _ hx
  unfold limitCounts at hx
  unfold toggleCounts
  split at hx
  · rename_i hby
    rw [if_pos hby]
    split at hx
    · rename_i hsold
      rw [if_pos (Or.inl hsold)]
      cases hu : x.2.hold_until with
      | none => rfl
      | some h =>
        dsimp only
        rw [if_neg]
        rintro ⟨hheld, _⟩
        rw [hsold] at hheld
        exact absurd hheld (by decide)
    · split at hx
      · rename_i hheld
        rw [if_pos (Or.inr hheld)]
        cases hu : x.2.hold_until with
        | none => rfl
        | some h =>
          rw [hu] at hx
          dsimp only at hx ⊢
          have hgt : dateOf cfg h > now := by simpa using hx
          rw [if_neg]
          rintro ⟨_, hlt⟩
          omega
      · cases hx
  · cases hx

/-- C5 (code evaluated at the failing input): for a seat held by the current
user whose hold ends exactly at `now`, the loop of `toggleSeat` counts 1, the
loop of `updateLimitStatus` counts 0, and the count of the specification
(`SOLD`, or `HELD` with `holdUntil ≥ now`) is 1; for a seat held by the current
user without `hold_until`, `toggleSeat` counts 1 and `updateLimitStatus`
counts 0. -/
theorem used_counts_diverge :
    myPreUsedToggle cfgCap3 1000 [("A1", heldBy 1 1000)] = 1
    ∧ myPreUsedLimit cfgCap3 1000 [("A1", heldBy 1 1000)] = 0
    ∧ countOwnedByUser cfgCap3.CURRENT_USER_ID 1000 [("A1", heldBy 1 1000)] = 1
    ∧ myPreUsedToggle cfgCap3 1000
        [("A1", { status := "HELD", zone := "GENERAL", held_by := some 1, hold_until := none })]
      = 1
    ∧ myPreUsedLimit cfgCap3 1000
        [("A1", { status := "HELD", zone := "GENERAL", held_by := some 1, hold_until := none })]
      = 0 := by
  decide

/-! ## Hold request -/

/-- C6: for a non-empty selection and a successful hold response carrying a
seat list and an expiry, after `holdSeats` the held list is the sorted seat
list of the response (its members are exactly the returned seats, whatever was
requested), the selection is empty and the countdown runs to the returned
expiry as `startCountdown` reads it. -/
theorem holdSeats_takes_granted (cfg : Config) (now : Int) (s : State)
    (result : HoldResult) (reload : LoadResult) (granted : List String) (holdUntil : Stamp)
    (hsel : s.selectedSeats ≠ [])
    (hok : result.ok = true)
    (hseats : result.seats = some granted)
    (huntil : result.hold_until = some holdUntil) :
    (holdSeats cfg now s result reload).heldSeats = sortKeys granted
    ∧ (∀ k, k ∈ (holdSeats cfg now s result reload).heldSeats ↔ k ∈ granted)
    ∧ (holdSeats cfg now s result reload).selectedSeats = []
    ∧ (holdSeats cfg now s result reload).holdTimer = some (countdownEnd holdUntil) := by
  have h : holdSeats cfg now s result reload
      = startCountdown { s with
          heldSeats := sortKeys granted,
          buttons := updateSeatsUI s.buttons granted "my-hold",
          selectedSeats := [] } holdUntil := by
    unfold holdSeats
    rw [if_neg hsel]
    simp [hok, hseats, huntil]
  rw [h]
  refine ⟨rfl, ?_, rfl, rfl⟩
  intro k
  exact mem_sortKeys k granted

/-- C6 witness: the request `[B3, B4]` answered with `seats: [B3]`. -/
theorem holdSeats_takes_granted_witness :
    ({ stateWith [] with selectedSeats := ["B3", "B4"] } : State).selectedSeats ≠ []
    ∧ (holdSeats cfgCap3 1000 { stateWith [] with selectedSeats := ["B3", "B4"] }
          { ok := true, seats := some ["B3"], hold_until := some (Stamp.unzoned 601000) }
          { ok := false, data := { seats := none, rows := none, cols := none } }).heldSeats
        = ["B3"]
    ∧ (holdSeats cfgCap3 1000 { stateWith [] with selectedSeats := ["B3", "B4"] }
          { ok := true, seats := some ["B3"], hold_until := some (Stamp.unzoned 601000) }
          { ok := false, data := { seats := none, rows := none, cols := none } }).selectedSeats
        = [] :=
  ⟨by decide,
    (holdSeats_takes_granted cfgCap3 1000 { stateWith [] with selectedSeats := ["B3", "B4"] }
      { ok := true, seats := some ["B3"], hold_until := some (Stamp.unzoned 601000) }
      { ok := false, data := { seats := none, rows := none, cols := none } }
      ["B3"] (Stamp.unzoned 601000) (by decide) rfl rfl rfl).1,
    (holdSeats_takes_granted cfgCap3 1000 { stateWith [] with selectedSeats := ["B3", "B4"] }
      { ok := true, seats := some ["B3"], hold_until := some (Stamp.unzoned 601000) }
      { ok := false, data := { seats := none, rows := none, cols := none } }
      ["B3"] (Stamp.unzoned 601000) (by decide) rfl rfl rfl).2.2.1⟩

/-! ## Purchase -/

/-- After a successful purchase response `confirmPurchase` has stopped the
countdown and has left the held list, the selection, the catalog and the
expired flag as they were. -/
theorem confirmPurchase_success (s : State) :
    (confirmPurchase s true).holdTimer = none
    ∧ (confirmPurchase s true).heldSeats = s.heldSeats
    ∧ (confirmPurchase s true).selectedSeats = s.selectedSeats
    ∧ (confirmPurchase s true).seatData = s.seatData
    ∧ (confirmPurchase s true).isExpired = s.isExpired := by
  simp [confirmPurchase]

/-- C7 (code evaluated at the failing input): on a state holding A1 and A2
with a running countdown, a successful purchase response stops the countdown
but the held list still names A1 and A2. -/
theorem confirmPurchase_keeps_held :
    (confirmPurchase
        { stateWith [] with heldSeats := ["A1", "A2"], holdTimer := some (TimeValue.ms 601000) } true).holdTimer
      = none
    ∧ (confirmPurchase
        { stateWith [] with heldSeats := ["A1", "A2"], holdTimer := some (TimeValue.ms 601000) } true).heldSeats
      = ["A1", "A2"] := by
  decide

/-! ## Release -/

/-- C8: for a non-empty held list, `releaseHold` ends in the same state for any
two responses of the release endpoint, and in that state the held list and the
selection are empty, no countdown runs and a catalog reload is scheduled. -/
theorem releaseHold_best_effort (s : State) (r1 r2 : Bool) (hheld : s.heldSeats ≠ []) :
    releaseHold s r1 = releaseHold s r2
    ∧ (releaseHold s r1).heldSeats = []
    ∧ (releaseHold s r1).selectedSeats = []
    ∧ (releaseHold s r1).holdTimer = none
    ∧ (releaseHold s r1).loadScheduled = true := by
  simp [releaseHold, hheld]

/-- C8 witness: a hold on A1 and A2, released with a successful and with a
failed response. -/
theorem releaseHold_best_effort_witness :
    ({ stateWith [] with heldSeats := ["A1", "A2"], holdTimer := some (TimeValue.ms 601000) } : State).heldSeats
        ≠ []
    ∧ releaseHold { stateWith [] with heldSeats := ["A1", "A2"], holdTimer := some (TimeValue.ms 601000) } true
        = releaseHold { stateWith [] with heldSeats := ["A1", "A2"], holdTimer := some (TimeValue.ms 601000) }
            false
    ∧ (releaseHold { stateWith [] with heldSeats := ["A1", "A2"], holdTimer := some (TimeValue.ms 601000) }
          true).heldSeats = [] :=
  ⟨by decide,
    (releaseHold_best_effort
      { stateWith [] with heldSeats := ["A1", "A2"], holdTimer := some (TimeValue.ms 601000) } true false
      (by decide)).1,
    (releaseHold_best_effort
      { stateWith [] with heldSeats := ["A1", "A2"], holdTimer := some (TimeValue.ms 601000) } true false
      (by decide)).2.1⟩

/-! ## Loading a snapshot -/

theorem loadSeats_selectedSeats (cfg : Config) (now : Int) (s : State) (result : LoadResult) :
    (loadSeats cfg now s result).selectedSeats = s.selectedSeats := by
  unfold loadSeats
  split
  · rfl
  · simp only [checkExistingHolds, renderSeatMap, showConfirmPanel, startCountdown]
    split <;> rfl

theorem loadSeats_idem (cfg : Config) (now : Int) (s : State) (result : LoadResult) :
    loadSeats cfg now (loadSeats cfg now s result) result = loadSeats cfg now s result := by
  unfold loadSeats
  split
  · rename_i hok
    simp [hok]
  · rename_i hok
    simp only [hok, if_false, checkExistingHolds, renderSeatMap, showConfirmPanel,
      startCountdown]
    split <;> split <;> simp_all

/-! ## The loop of `checkExistingHolds` -/

theorem activeHold_iff (cfg : Config) (now : Int) (s : Seat) :
    activeHold cfg now s = true ↔
      s.status = "HELD" ∧ s.held_by = some cfg.CURRENT_USER_ID
        ∧ ∃ h, s.hold_until = some h ∧ now < dateOf cfg h := by
  unfold activeHold
  cases h : s.hold_until with
  | none => simp
  | some t => simp [and_assoc]

theorem checkStep_inactive (cfg : Config) (now : Int) (acc : List String × Option Stamp)
    (x : String × Seat) (h : ¬ activeHold cfg now x.2 = true) :
    checkStep cfg now acc x = acc := by
  rw [activeHold_iff] at h
  unfold checkStep
  cases hu : x.2.hold_until with
  | none => rfl
  | some t =>
    dsimp only
    split
    · rename_i hsb
      split
      · rename_i hlt
        exact absurd ⟨hsb.1, hsb.2, t, hu, hlt⟩ h
      · rfl
    · rfl

theorem checkStep_active (cfg : Config) (now : Int) (acc : List String × Option Stamp)
    (x : String × Seat) (t : Stamp) (hs : x.2.status = "HELD")
    (hb : x.2.held_by = some cfg.CURRENT_USER_ID) (hu : x.2.hold_until = some t)
    (hlt : now < dateOf cfg t) :
    checkStep cfg now acc x =
      (acc.1 ++ [x.1],
        match acc.2 with
        | none => some t
        | some earliest =>
          if dateOf cfg t < dateOf cfg earliest then some t else some earliest) := by
  unfold checkStep
  simp only [hu]
  rw [if_pos ⟨hs, hb⟩, if_pos hlt]

theorem checkFold_keys (cfg : Config) (now : Int) (cat : Catalog) :
    ∀ acc : List String × Option Stamp,
      (cat.foldl (checkStep cfg now) acc).1
        = acc.1 ++ (cat.filter (fun e => activeHold cfg now e.2)).map Prod.fst := by
  induction cat with
  | nil => intro acc; simp
  | cons x rest ih =>
    intro acc
    rw [List.foldl_cons, ih]
    by_cases h : activeHold cfg now x.2 = true
    · obtain ⟨hs, hb, t, hu, hlt⟩ := (activeHold_iff cfg now x.2).1 h
      rw [checkStep_active cfg now acc x t hs hb hu hlt]
      simp [List.filter_cons, h]
    · rw [checkStep_inactive cfg now acc x h]
      simp [List.filter_cons, h]

/-- The text kept by the loop of `checkExistingHolds` is the `hold_until` of a
seat that passed the test, and no seat that passed the test has, read as
written, an earlier one. -/
theorem checkFold_earliest (cfg : Config) (now : Int) (cat : Catalog) :
    ∀ acc : List String × Option Stamp,
      (∀ a, acc.2 = some a →
        ∃ e, (cat.foldl (checkStep cfg now) acc).2 = some e ∧ dateOf cfg e ≤ dateOf cfg a)
      ∧ ((∃ x ∈ cat, activeHold cfg now x.2 = true) →
          ∃ e, (cat.foldl (checkStep cfg now) acc).2 = some e)
      ∧ (∀ e, (cat.foldl (checkStep cfg now) acc).2 = some e →
          acc.2 = some e
            ∨ ∃ x ∈ cat, activeHold cfg now x.2 = true ∧ x.2.hold_until = some e)
      ∧ (∀ e, (cat.foldl (checkStep cfg now) acc).2 = some e →
          ∀ x ∈ cat, activeHold cfg now x.2 = true →
            ∀ u, x.2.hold_until = some u → dateOf cfg e ≤ dateOf cfg u) := by
  induction cat with
  | nil =>
    intro acc
    refine ⟨fun a ha => ⟨a, ha, le_refl _⟩, ?_, fun e he => Or.inl he, ?_⟩
    · rintro ⟨x, hx, _⟩
      cases hx
    · intro e _ x hx
      cases hx
  | cons x rest ih =>
    intro acc
    simp only [List.foldl_cons]
    by_cases h : activeHold cfg now x.2 = true
    · obtain ⟨hs, hb, t, hu, hlt⟩ := (activeHold_iff cfg now x.2).1 h
      obtain ⟨ih1, _, ih3, ih4⟩ := ih (checkStep cfg now acc x)
      have hstep := checkStep_active cfg now acc x t hs hb hu hlt
      obtain ⟨m, hm, hmt, hma, hmo⟩ :
          ∃ m, (checkStep cfg now acc x).2 = some m ∧ dateOf cfg m ≤ dateOf cfg t
            ∧ (∀ a, acc.2 = some a → dateOf cfg m ≤ dateOf cfg a)
            ∧ (m = t ∨ acc.2 = some m) := by
        rw [hstep]
        cases hacc : acc.2 with
        | none => exact ⟨t, rfl, le_refl _, fun a ha => (by cases ha), Or.inl rfl⟩
        | some a =>
          by_cases hta : dateOf cfg t < dateOf cfg a
          · refine ⟨t, by simp [hta], le_refl _, ?_, Or.inl rfl⟩
            intro b hb2
            cases hb2
            exact le_of_lt hta
          · refine ⟨a, by simp [hta], by omega, ?_, Or.inr rfl⟩
            intro b hb2
            cases hb2
            exact le_refl _
      obtain ⟨e0, he0, he0m⟩ := ih1 m hm
      refine ⟨?_, fun _ => ⟨e0, he0⟩, ?_, ?_⟩
      · intro a ha
        exact ⟨e0, he0, le_trans he0m (hma a ha)⟩
      · intro e he
        rcases ih3 e he with h3 | ⟨y, hy, hya, hyu⟩
        · rw [hm] at h3
          cases h3
          rcases hmo with hmt2 | hacc
          · exact Or.inr ⟨x, List.mem_cons_self _ _, h, by rw [hu, hmt2]⟩
          · exact Or.inl hacc
        · exact Or.inr ⟨y, List.mem_cons_of_mem _ hy, hya, hyu⟩
      · intro e he y hy hya u hyu
        rcases List.mem_cons.1 hy with rfl | hy2
        · rw [hu] at hyu
          cases hyu
          rw [he0] at he
          cases he
          exact le_trans he0m hmt
        · exact ih4 e he y hy2 hya u hyu
    · rw [checkStep_inactive cfg now acc x h]
      obtain ⟨ih1, ih2, ih3, ih4⟩ := ih acc
      refine ⟨ih1, ?_, ?_, ?_⟩
      · rintro ⟨y, hy, hya⟩
        rcases List.mem_cons.1 hy with rfl | hy2
        · exact absurd hya h
        · exact ih2 ⟨y, hy2, hya⟩
      · intro e he
        rcases ih3 e he with h3 | ⟨y, hy, hya, hyu⟩
        · exact Or.inl h3
        · exact Or.inr ⟨y, List.mem_cons_of_mem _ hy, hya, hyu⟩
      · intro e he y hy hya u hyu
        rcases List.mem_cons.1 hy with rfl | hy2
        · exact absurd hya h
        · exact ih4 e he y hy2 hya u hyu

/-! ## Resynchronisation on load -/

/-- What `checkExistingHolds` does when at least one seat passes its test
(`HELD` by the current user, `hold_until` read as written later than `now`):
the held list consists of exactly the keys of the seats that pass (it is their
sorted list), and the countdown is started on the text of one of them that,
read as written, is not later than that of any of them; the `endTime` of the
countdown is the reading of that text by `startCountdown`. -/
theorem checkExistingHolds_as_read (cfg : Config) (now : Int) (s : State)
    (h : ∃ x ∈ s.seatData, activeHold cfg now x.2 = true) :
    (∀ k, k ∈ (checkExistingHolds cfg now s).heldSeats ↔
        ∃ x ∈ s.seatData, x.1 = k ∧ activeHold cfg now x.2 = true)
    ∧ (checkExistingHolds cfg now s).heldSeats
        = sortKeys ((s.seatData.filter (fun e => activeHold cfg now e.2)).map Prod.fst)
    ∧ ∃ t, (checkExistingHolds cfg now s).holdTimer = some (countdownEnd t)
        ∧ (∃ x ∈ s.seatData, activeHold cfg now x.2 = true ∧ x.2.hold_until = some t)
        ∧ ∀ x ∈ s.seatData, activeHold cfg now x.2 = true →
            ∀ u, x.2.hold_until = some u → dateOf cfg t ≤ dateOf cfg u := by
  have hkeys := checkFold_keys cfg now s.seatData ([], none)
  obtain ⟨_, h2, h3, h4⟩ := checkFold_earliest cfg now s.seatData ([], none)
  obtain ⟨e, he⟩ := h2 h
  obtain ⟨x0, hx0, hx0a⟩ := h
  simp only [List.nil_append] at hkeys
  have hne : (s.seatData.foldl (checkStep cfg now) ([], none)).1 ≠ [] := by
    rw [hkeys]
    intro hnil
    have hmem : x0.1 ∈ (s.seatData.filter (fun e => activeHold cfg now e.2)).map Prod.fst :=
      List.mem_map.2 ⟨x0, List.mem_filter.2 ⟨hx0, hx0a⟩, rfl⟩
    rw [hnil] at hmem
    cases hmem
  have hcheck : checkExistingHolds cfg now s
      = showConfirmPanel
          { s with heldSeats := (s.seatData.foldl (checkStep cfg now) ([], none)).1 } e := by
    unfold checkExistingHolds
    dsimp only
    split
    · rename_i k ks t hk ht
      rw [he] at ht
      cases ht
      rw [hk]
    · rename_i hno
      cases hl : (s.seatData.foldl (checkStep cfg now) ([], none)).1 with
      | nil => exact absurd hl hne
      | cons k ks => exact absurd he (hno k ks e hl)
  have hheld : (checkExistingHolds cfg now s).heldSeats
      = sortKeys ((s.seatData.filter (fun e => activeHold cfg now e.2)).map Prod.fst) := by
    rw [hcheck, ← hkeys]
    rfl
  refine ⟨?_, hheld, e, ?_, ?_, ?_⟩
  · intro k
    rw [hheld, mem_sortKeys, List.mem_map]
    constructor
    · rintro ⟨x, hx, rfl⟩
      obtain ⟨hxm, hxa⟩ := List.mem_filter.1 hx
      exact ⟨x, hxm, rfl, hxa⟩
    · rintro ⟨x, hxm, rfl, hxa⟩
      exact ⟨x, List.mem_filter.2 ⟨hxm, hxa⟩, rfl⟩
  · rw [hcheck]
    rfl
  · rcases h3 e he with hnone | hex
    · cases hnone
    · exact hex
  · exact h4 e he

theorem activeHold_eq_liveHold (cfg : Config) (now : Int) (x : Seat)
    (hc : ∀ h, x.hold_until = some h → instantOf h = dateOf cfg h) :
    activeHold cfg now x = liveHold cfg.CURRENT_USER_ID now x := by
  unfold activeHold liveHold
  cases hu : x.hold_until with
  | none => rfl
  | some h =>
    dsimp only
    rw [hc h hu]

/-- Where the two readings of every `hold_until` text of the catalog agree
with the instant it denotes (texts ending in `Z` or carrying `+hh:mm`, or a
browser in UTC without negative offsets), and some seat has a live hold of the
current user, `checkExistingHolds` holds exactly the seats with a live hold and
starts the countdown on the earliest of their instants. -/
theorem checkExistingHolds_consistent (cfg : Config) (now : Int) (s : State)
    (hc : ∀ x ∈ s.seatData, ∀ h, x.2.hold_until = some h →
      instantOf h = dateOf cfg h ∧ countdownEnd h = TimeValue.ms (instantOf h))
    (hlive : ∃ x ∈ s.seatData, liveHold cfg.CURRENT_USER_ID now x.2 = true) :
    (∀ k, k ∈ (checkExistingHolds cfg now s).heldSeats ↔
        k ∈ liveHoldKeys cfg.CURRENT_USER_ID now s.seatData)
    ∧ ∃ t, (checkExistingHolds cfg now s).holdTimer = some (TimeValue.ms (instantOf t))
        ∧ (∃ x ∈ s.seatData, liveHold cfg.CURRENT_USER_ID now x.2 = true
            ∧ x.2.hold_until = some t)
        ∧ ∀ x ∈ s.seatData, liveHold cfg.CURRENT_USER_ID now x.2 = true →
            ∀ u, x.2.hold_until = some u → instantOf t ≤ instantOf u := by
  have heq : ∀ x ∈ s.seatData,
      activeHold cfg now x.2 = liveHold cfg.CURRENT_USER_ID now x.2 :=
    fun x hx => activeHold_eq_liveHold cfg now x.2 (fun h hh => (hc x hx h hh).1)
  obtain ⟨x0, hx0, hx0l⟩ := hlive
  obtain ⟨hmem, _, t, ht, ⟨xt, hxt, hxta, hxtu⟩, hmin⟩ :=
    checkExistingHolds_as_read cfg now s ⟨x0, hx0, by rw [heq x0 hx0]; exact hx0l⟩
  refine ⟨?_, t, ?_, ⟨xt, hxt, by rw [← heq xt hxt]; exact hxta, hxtu⟩, ?_⟩
  · intro k
    rw [hmem k]
    unfold liveHoldKeys
    rw [List.mem_map]
    constructor
    · rintro ⟨x, hx, rfl, hxa⟩
      exact ⟨x, List.mem_filter.2 ⟨hx, by rw [← heq x hx]; exact hxa⟩, rfl⟩
    · rintro ⟨x, hx, rfl⟩
      obtain ⟨hxm, hxl⟩ := List.mem_filter.1 hx
      exact ⟨x, hxm, rfl, by rw [heq x hxm]; exact hxl⟩
  · rw [ht, (hc xt hxt t hxtu).2]
  · intro x hx hxl u hu
    have h1 := hmin x hx (by rw [heq x hx]; exact hxl) u hu
    rw [(hc xt hxt t hxtu).1, (hc x hx u hu).1]
    exact h1

/-- C3 (code evaluated at the failing input): browser five hours behind UTC,
`now = 400000`, current user 1.  With A1 held by user 1 until the undesignated
text that reads 301000 as UTC, the loop reads it as local time (18301000, later
than `now`), so `checkExistingHolds` holds A1; the countdown it starts reads the
same text as UTC, so its `endTime` is 301000, already past, and the session is
expired at the first tick.  With A2 in addition, held until the text that reads
600000 as UTC, the held list is `[A1, A2]` and `endTime` is again 301000, while
the only seat whose `hold_until` instant is later than `now` is A2. -/
theorem resync_countdown_reads_utc :
    dateOf cfgUtcMinus5 (Stamp.unzoned 301000) = 18301000
    ∧ (checkExistingHolds cfgUtcMinus5 400000
        (stateWith [("A1", heldByUnzoned 1 301000)])).heldSeats = ["A1"]
    ∧ (checkExistingHolds cfgUtcMinus5 400000
        (stateWith [("A1", heldByUnzoned 1 301000)])).holdTimer = some (TimeValue.ms 301000)
    ∧ (tick (checkExistingHolds cfgUtcMinus5 400000
        (stateWith [("A1", heldByUnzoned 1 301000)])) 401000).isExpired = true
    ∧ (checkExistingHolds cfgUtcMinus5 400000
        (stateWith [("A1", heldByUnzoned 1 301000), ("A2", heldByUnzoned 1 600000)])).heldSeats
      = ["A1", "A2"]
    ∧ (checkExistingHolds cfgUtcMinus5 400000
        (stateWith [("A1", heldByUnzoned 1 301000), ("A2", heldByUnzoned 1 600000)])).holdTimer
      = some (TimeValue.ms 301000)
    ∧ liveHoldKeys cfgUtcMinus5.CURRENT_USER_ID 400000
        [("A1", heldByUnzoned 1 301000), ("A2", heldByUnzoned 1 600000)] = ["A2"] := by
  decide

/-- Loading a snapshot in which A1 and A2 are held by user 1 for five more
minutes (texts with the `Z` suffix), from the initial state and without any
hold request, yields the held list `[A1, A2]` with the countdown running to
that instant. -/
theorem loadSeats_resync_example :
    (loadSeats cfgCap3 1000 initialState
        { ok := true,
          data := { seats := some [("A1", heldBy 1 301000), ("A2", heldBy 1 301000)],
                    rows := some 1, cols := some 4 } }).heldSeats = ["A1", "A2"]
    ∧ (loadSeats cfgCap3 1000 initialState
        { ok := true,
          data := { seats := some [("A1", heldBy 1 301000), ("A2", heldBy 1 301000)],
                    rows := some 1, cols := some 4 } }).holdTimer
      = some (TimeValue.ms 301000) := by
  decide

/-- C9 (as stated, refuted): loading a snapshot into a state in which A1 is
selected leaves A1 selected, so the selection is not empty after the load. -/
theorem loadSeats_selection_counterexample :
    (loadSeats cfgCap3 1000 { stateWith [] with selectedSeats := ["A1"] }
        { ok := true, data := { seats := some [], rows := some 1, cols := some 1 } }).selectedSeats
      ≠ [] := by
  decide

/-- C9 (amended): for every prior state, snapshot result and fixed clock,
loading twice in succession yields after the second load the same state as
after the first (held list, countdown expiry and expired flag included), and
each load leaves the selection as it was before the first load, so the
selection is empty after both loads exactly when it was empty before. -/
theorem loadSeats_twice (cfg : Config) (now : Int) (s : State) (result : LoadResult) :
    loadSeats cfg now (loadSeats cfg now s result) result = loadSeats cfg now s result
    ∧ (loadSeats cfg now (loadSeats cfg now s result) result).heldSeats
        = (loadSeats cfg now s result).heldSeats
    ∧ (loadSeats cfg now (loadSeats cfg now s result) result).holdTimer
        = (loadSeats cfg now s result).holdTimer
    ∧ (loadSeats cfg now (loadSeats cfg now s result) result).isExpired
        = (loadSeats cfg now s result).isExpired
    ∧ (loadSeats cfg now s result).selectedSeats = s.selectedSeats
    ∧ (loadSeats cfg now (loadSeats cfg now s result) result).selectedSeats
        = s.selectedSeats := by
  have h := loadSeats_idem cfg now s result
  have hs := loadSeats_selectedSeats cfg now s result
  refine ⟨h, ?_, ?_, ?_, hs, ?_⟩
  · rw [h]
  · rw [h]
  · rw [h]
  · rw [h, hs]

/-! ## Rendering -/

theorem free_ne_taken : ("FREE" : String) ≠ "SOLD" ∧ ("FREE" : String) ≠ "HELD" :=
  ⟨by decide, by decide⟩

theorem getSeat_setSeat (cat : Catalog) (seatId k : String) (v : Seat) :
    getSeat (setSeat cat seatId v) k = if seatId = k then some v else getSeat cat k := by
  induction cat with
  | nil => simp [setSeat, getSeat]
  | cons e rest ih =>
    obtain ⟨k0, v0⟩ := e
    unfold setSeat
    by_cases h0 : k0 = seatId
    · subst h0
      by_cases hk : k0 = k
      · simp [getSeat, hk]
      · simp [getSeat, hk]
    · by_cases hk : k0 = k
      · subst hk
        have h1 : ¬ seatId = k0 := fun h => h0 h.symm
        simp [getSeat, h0, h1]
      · simp only [h0, if_false, getSeat, hk]
        exact ih

theorem baseButton_seatId (cfg : Config) (seatId : String) (seat : Seat) :
    (baseButton cfg seatId seat).seatId = seatId := by
  unfold baseButton
  split
  · split <;> rfl
  · split
    · split <;> rfl
    · rfl

theorem baseButton_click (cfg : Config) (seatId : String) (seat : Seat)
    (h : (baseButton cfg seatId seat).click = true) :
    seat.status ≠ "SOLD" ∧ seat.status ≠ "HELD" := by
  unfold baseButton at h
  split at h
  · split at h <;> cases h
  · split at h
    · split at h <;> cases h
    · rename_i h1 h2
      exact ⟨h1, h2⟩

/-- The catalog returned by `renderSeat` is the given one, or the given one
with the rendered seat rewritten to `FREE`. -/
theorem renderSeat_catalog (cfg : Config) (now : Int) (cat : Catalog) (seatId : String) :
    (renderSeat cfg now cat seatId).1 = cat
    ∨ ∃ seat : Seat, (renderSeat cfg now cat seatId).1
        = setSeat cat seatId { seat with status := "FREE" } := by
  unfold renderSeat
  dsimp only
  split
  · split
    · exact Or.inr ⟨_, rfl⟩
    · exact Or.inl rfl
  · exact Or.inl rfl

theorem renderSeat_keeps_notTaken (cfg : Config) (now : Int) (cat : Catalog)
    (seatId k : String) (h : notTaken cat k) :
    notTaken (renderSeat cfg now cat seatId).1 k := by
  rcases renderSeat_catalog cfg now cat seatId with heq | ⟨seat, heq⟩
  · rw [heq]
    exact h
  · rw [heq]
    intro seat2 hget
    rw [getSeat_setSeat] at hget
    split at hget
    · cases hget
      exact free_ne_taken
    · exact h seat2 hget

theorem renderSeat_seatId (cfg : Config) (now : Int) (cat : Catalog) (seatId : String) :
    (renderSeat cfg now cat seatId).2.seatId = seatId := by
  unfold renderSeat
  dsimp only
  split
  · split
    · exact baseButton_seatId cfg seatId _
    · exact baseButton_seatId cfg seatId _
  · exact baseButton_seatId cfg seatId _

/-- A button that `renderSeat` leaves with a click listener belongs to a seat
that the returned catalog does not record as `SOLD` or `HELD`. -/
theorem renderSeat_click (cfg : Config) (now : Int) (cat : Catalog) (seatId : String)
    (h : (renderSeat cfg now cat seatId).2.click = true) :
    notTaken (renderSeat cfg now cat seatId).1 seatId := by
  unfold renderSeat at h ⊢
  dsimp only at h ⊢
  split
  · rename_i holdEnd hu
    rw [hu] at h
    dsimp only at h
    split
    · intro seat2 hget
      rw [getSeat_setSeat] at hget
      simp only [if_true] at hget
      cases hget
      exact free_ne_taken
    · rename_i hno
      rw [if_neg hno] at h
      have hb := baseButton_click cfg seatId _ h
      intro seat2 hget
      rw [hget] at hb
      exact hb
  · rename_i hu
    rw [hu] at h
    dsimp only at h
    have hb := baseButton_click cfg seatId _ h
    intro seat2 hget
    rw [hget] at hb
    exact hb

theorem renderFold_click (cfg : Config) (now : Int) (ids : List String) :
    ∀ acc : Catalog × List Button,
      (∀ b ∈ acc.2, b.click = true → notTaken acc.1 b.seatId) →
      ∀ b ∈ (ids.foldl (renderStep cfg now) acc).2, b.click = true →
        notTaken (ids.foldl (renderStep cfg now) acc).1 b.seatId := by
  induction ids with
  | nil => intro acc h; exact h
  | cons k rest ih =>
    intro acc h
    rw [List.foldl_cons]
    apply ih
    intro b hb hclick
    unfold renderStep at hb ⊢
    dsimp only at hb ⊢
    rcases List.mem_append.1 hb with hold | hnew
    · exact renderSeat_keeps_notTaken cfg now acc.1 k b.seatId (h b hold hclick)
    · rw [List.mem_singleton] at hnew
      subst hnew
      rw [renderSeat_seatId]
      exact renderSeat_click cfg now acc.1 k hclick

theorem renderSeat_other (cfg : Config) (now : Int) (cat : Catalog) (seatId k : String)
    (hk : seatId ≠ k) :
    getSeat (renderSeat cfg now cat seatId).1 k = getSeat cat k := by
  rcases renderSeat_catalog cfg now cat seatId with heq | ⟨seat, heq⟩
  · rw [heq]
  · rw [heq, getSeat_setSeat, if_neg hk]

theorem renderSeat_keeps_free (cfg : Config) (now : Int) (cat : Catalog) (seatId k : String)
    (v : Seat) (hget : getSeat cat k = some v) (hfree : v.status = "FREE") :
    getSeat (renderSeat cfg now cat seatId).1 k = some v := by
  by_cases hk : seatId = k
  · subst hk
    have hne : ¬ v.status = "HELD" := by
      rw [hfree]
      exact free_ne_taken.2
    unfold renderSeat
    dsimp only
    rw [hget]
    simp only [Option.getD_some]
    split
    · rw [if_neg (fun h => hne h.1)]
      exact hget
    · exact hget
  · rw [renderSeat_other cfg now cat seatId k hk]
    exact hget

theorem renderFold_keeps_free (cfg : Config) (now : Int) (ids : List String) (k : String)
    (v : Seat) (hfree : v.status = "FREE") :
    ∀ acc : Catalog × List Button, getSeat acc.1 k = some v →
      getSeat (ids.foldl (renderStep cfg now) acc).1 k = some v := by
  induction ids with
  | nil => intro acc h; exact h
  | cons i rest ih =>
    intro acc h
    rw [List.foldl_cons]
    exact ih _ (renderSeat_keeps_free cfg now acc.1 i k v h hfree)

theorem renderFold_keeps_buttons (cfg : Config) (now : Int) (ids : List String) (b : Button) :
    ∀ acc : Catalog × List Button, b ∈ acc.2 →
      b ∈ (ids.foldl (renderStep cfg now) acc).2 := by
  induction ids with
  | nil => intro acc h; exact h
  | cons i rest ih =>
    intro acc h
    rw [List.foldl_cons]
    exact ih _ (List.mem_append_left _ h)

/-- Rendering a seat whose stored hold, read as written, has expired: the
entry is rewritten to `FREE`, and the button gets the free class and a click
listener while it stays disabled. -/
theorem renderSeat_expired (cfg : Config) (now : Int) (cat : Catalog) (k : String)
    (seat : Seat) (hget : getSeat cat k = some seat) (hexp : expiredHold cfg now seat) :
    getSeat (renderSeat cfg now cat k).1 k = some { seat with status := "FREE" }
    ∧ (renderSeat cfg now cat k).2
        = { seatId := k, className := "seat seat-free", disabled := true, click := true } := by
  obtain ⟨hheld, t, hu, hlt⟩ := hexp
  have hsold : ¬ seat.status = "SOLD" := by
    rw [hheld]
    decide
  have hbase : (baseButton cfg k seat).disabled = true ∧ (baseButton cfg k seat).seatId = k := by
    unfold baseButton
    rw [if_neg hsold, if_pos hheld]
    split <;> exact ⟨rfl, rfl⟩
  unfold renderSeat
  dsimp only
  rw [hget]
  simp only [Option.getD_some, hu]
  rw [if_pos ⟨hheld, hlt⟩]
  refine ⟨?_, ?_⟩
  · rw [getSeat_setSeat, if_pos rfl]
  · dsimp only
    rw [hbase.1, hbase.2]

/-- Every seat of the rendered grid whose stored hold has expired ends up
`FREE` in the catalog, with a button that has the free class and a click
listener and is disabled. -/
theorem renderFold_expired (cfg : Config) (now : Int) (ids : List String) (k : String)
    (seat : Seat) (hexp : expiredHold cfg now seat) :
    ∀ acc : Catalog × List Button, k ∈ ids → getSeat acc.1 k = some seat →
      getSeat (ids.foldl (renderStep cfg now) acc).1 k = some { seat with status := "FREE" }
      ∧ ({ seatId := k, className := "seat seat-free", disabled := true, click := true } : Button)
          ∈ (ids.foldl (renderStep cfg now) acc).2 := by
  induction ids with
  | nil => intro acc hk; cases hk
  | cons i rest ih =>
    intro acc hk hget
    rw [List.foldl_cons]
    by_cases hik : i = k
    · subst hik
      obtain ⟨h1, h2⟩ := renderSeat_expired cfg now acc.1 i seat hget hexp
      refine ⟨?_, ?_⟩
      · exact renderFold_keeps_free cfg now rest i _ rfl _ h1
      · apply renderFold_keeps_buttons
        unfold renderStep
        dsimp only
        rw [h2]
        exact List.mem_append_right _ (List.mem_singleton.2 rfl)
    · have hk2 : k ∈ rest := by
        rcases List.mem_cons.1 hk with h | h
        · exact absurd h.symm hik
        · exact h
      apply ih _ hk2
      unfold renderStep
      dsimp only
      rw [renderSeat_other cfg now acc.1 i k hik]
      exact hget

theorem checkExistingHolds_keeps_map (cfg : Config) (now : Int) (s : State) :
    (checkExistingHolds cfg now s).seatData = s.seatData
    ∧ (checkExistingHolds cfg now s).buttons = s.buttons := by
  unfold checkExistingHolds
  dsimp only
  split
  · exact ⟨rfl, rfl⟩
  · exact ⟨rfl, rfl⟩

/-- After a successful load, every seat of the snapshot that lies in the
rendered grid and is stored as `HELD` with `hold_until`, read as written,
earlier than `now`, whoever holds it, is `FREE` in the local catalog, and the
map has for it a button with the free class and a click listener that is
disabled. -/
theorem loadSeats_expired_hold (cfg : Config) (now : Int) (s : State) (data : Snapshot)
    (k : String) (seat : Seat)
    (hgrid : k ∈ gridIds (orElse data.rows cfg.EVENT_ROWS) (orElse data.cols cfg.EVENT_COLS))
    (hget : getSeat (data.seats.getD []) k = some seat) (hexp : expiredHold cfg now seat) :
    getSeat (loadSeats cfg now s { ok := true, data := data }).seatData k
        = some { seat with status := "FREE" }
    ∧ ({ seatId := k, className := "seat seat-free", disabled := true, click := true } : Button)
        ∈ (loadSeats cfg now s { ok := true, data := data }).buttons := by
  obtain ⟨h1, h2⟩ := renderFold_expired cfg now _ k seat hexp (data.seats.getD [], []) hgrid hget
  unfold loadSeats
  simp only [Bool.true_eq_false, if_false]
  obtain ⟨hc1, hc2⟩ := checkExistingHolds_keeps_map cfg now
    (renderSeatMap cfg now { s with seatData := data.seats.getD [] } data)
  show getSeat (checkExistingHolds cfg now _).seatData k = _
    ∧ _ ∈ (checkExistingHolds cfg now _).buttons
  rw [hc1, hc2]
  exact ⟨h1, h2⟩

/-! ## Selection and seat status -/

/-- C4 (as stated, refuted): with cap 3 and nothing owned or selected,
`toggleSeat` on A1, sold to another user, and on A2, held by another user until
after `now`, adds the key to the selection. -/
theorem toggleSeat_status_counterexample :
    (toggleSeat cfgCap3 1000 (stateWith [("A1", soldTo 2), ("A2", heldBy 2 5000)])
        "A1").selectedSeats = ["A1"]
    ∧ (toggleSeat cfgCap3 1000 (stateWith [("A1", soldTo 2), ("A2", heldBy 2 5000)])
        "A2").selectedSeats = ["A2"] := by
  decide

/-- C4 (amended): for a seat key that is not in the selection, `toggleSeat`
adds the key exactly when the session is not expired and the cap gate passes
(already-used seats plus selection plus one is at most `MAX_PER_USER`),
whatever status the catalog records for the seat, and otherwise leaves the
state unchanged; the restriction to free seats is in `renderSeatMap`: every
button it leaves with a `toggleSeat` click listener belongs to a seat that the
catalog after rendering does not record as `SOLD` or `HELD`. -/
theorem toggleSeat_gate_and_render (cfg : Config) (now : Int) (s : State) (seatId : String)
    (hne : seatId ∉ s.selectedSeats) :
    ((s.isExpired = false
        ∧ myPreUsedToggle cfg now s.seatData + s.selectedSeats.length + 1 ≤ cfg.MAX_PER_USER) →
      (toggleSeat cfg now s seatId).selectedSeats = sortKeys (s.selectedSeats ++ [seatId])
        ∧ seatId ∈ (toggleSeat cfg now s seatId).selectedSeats)
    ∧ (¬ (s.isExpired = false
        ∧ myPreUsedToggle cfg now s.seatData + s.selectedSeats.length + 1 ≤ cfg.MAX_PER_USER) →
      toggleSeat cfg now s seatId = s)
    ∧ (∀ (s0 : State) (data : Snapshot) (b : Button),
        b ∈ (renderSeatMap cfg now s0 data).buttons → b.click = true →
          notTaken (renderSeatMap cfg now s0 data).seatData b.seatId) := by
  refine ⟨?_, ?_, ?_⟩
  · rintro ⟨hexp, hgate⟩
    have hsel : (toggleSeat cfg now s seatId).selectedSeats
        = sortKeys (s.selectedSeats ++ [seatId]) := by
      unfold toggleSeat
      rw [hexp]
      simp only [Bool.false_eq_true, if_false]
      rw [if_neg hne]
      rw [if_neg (by omega)]
    refine ⟨hsel, ?_⟩
    rw [hsel, mem_sortKeys]
    simp
  · intro hcond
    unfold toggleSeat
    split
    · rfl
    · rename_i hexp
      have hexp2 : s.isExpired = false := by simpa using hexp
      have hgate : myPreUsedToggle cfg now s.seatData + s.selectedSeats.length + 1
          > cfg.MAX_PER_USER := by
        by_contra hgate
        exact hcond ⟨hexp2, by omega⟩
      dsimp only
      rw [if_pos hgate]
  · intro s0 data b hb hclick
    unfold renderSeatMap at hb ⊢
    dsimp only at hb ⊢
    exact renderFold_click cfg now _ (s0.seatData, [])
      (fun b0 hb0 _ => by cases hb0) b hb hclick

/-- C4 witness: A3 is not selected, the session is not expired and the cap
allows one more seat, so A3 is added. -/
theorem toggleSeat_gate_and_render_witness :
    "A3" ∉ (stateWith [("A1", soldTo 1), ("A2", heldBy 1 5000)]).selectedSeats
    ∧ "A3" ∈ (toggleSeat cfgCap3 1000 (stateWith [("A1", soldTo 1), ("A2", heldBy 1 5000)])
        "A3").selectedSeats :=
  ⟨by decide,
    ((toggleSeat_gate_and_render cfgCap3 1000
      (stateWith [("A1", soldTo 1), ("A2", heldBy 1 5000)]) "A3" (by decide)).1
      ⟨rfl, by decide⟩).2⟩

/-! ## Expired holds in the rendered map -/

/-- C10 (code evaluated at the failing input): a snapshot of one seat, A1,
held by another user until 500, loaded at `now = 1000`.  After the load the
catalog records A1 as `FREE`, and the button of A1 has the free class and a
click listener but is still disabled, as set by the `HELD` branch. -/
theorem expired_hold_button_disabled :
    (loadSeats cfgCap3 1000 initialState
        { ok := true,
          data := { seats := some [("A1", heldBy 2 500)], rows := some 1, cols := some 1 } }).seatData
      = [("A1", { status := "FREE", zone := "GENERAL", held_by := some 2,
                  hold_until := some (Stamp.zulu 500) })]
    ∧ (loadSeats cfgCap3 1000 initialState
        { ok := true,
          data := { seats := some [("A1", heldBy 2 500)], rows := some 1, cols := some 1 } }).buttons
      = [{ seatId := "A1", className := "seat seat-free", disabled := true, click := true }] := by
  decide

end Seating
